import Mathlib

/-
Verification of the access-control terminal (ESP32 C sources) against its
natural-language specification.  The C modules under src/main/src are shallowly
embedded here: pure computations become Lean functions, the global mutable
state (the Firebase id token, the HTTP response accumulator) becomes explicit
state passing, and the external collaborators (HTTP transport, JSON parser,
SPI bus, RC522 reader, wall clock) become explicit environment parameters.
-/

namespace AccessControl

/- ===================== lcd_display.h / lcd_display.c ===================== -/

/-- Horizontal display resolution in pixels (LCD_H_RES in lcd_display.h). -/
def LCD_H_RES : Nat := 128

/-- Vertical display resolution in pixels (LCD_V_RES in lcd_display.h). -/
def LCD_V_RES : Nat := 160

/-- Number of rows filled per band (BUF_HEIGHT in lcd_display.h). -/
def BUF_HEIGHT : Nat := 40

/-- Gray RGB565 value (RGB565_GRAY in lcd_display.h). -/
def RGB565_GRAY : Nat := 0x8410

/-- Green RGB565 value (RGB565_GREEN in lcd_display.h). -/
def RGB565_GREEN : Nat := 0x07E0

/-- Red RGB565 value (RGB565_RED in lcd_display.h). -/
def RGB565_RED : Nat := 0xF800

/-- Card detection states of the display (CardColor enum in lcd_display.h). -/
inductive CardColor where
  | waiting
  | card
  | chip
deriving DecidableEq

/-- Mapping from CardColor to RGB565 values (card_colors array in lcd_display.h). -/
def card_colors : CardColor → Nat
  | .waiting => RGB565_GRAY
  | .card => RGB565_GREEN
  | .chip => RGB565_RED

/-- Color lookup (get_color_for_card in lcd_display.c). -/
def get_color_for_card (color : CardColor) : Nat := card_colors color

/-- One SPI transaction issued by the LCD driver.  A pixels transaction
records the scan-order index of its first pixel (the address window set by
the surrounding 0x2A/0x2B commands makes the band's pixels land at
consecutive scan-order positions starting at row*LCD_H_RES), its pixel
count, and the 16-bit wire-order color word filling its buffer. -/
inductive SpiTx where
  | cmd (b : Nat)
  | data (bytes : List Nat)
  | pixels (start size colorWord : Nat)
deriving DecidableEq

/-- Observable LCD bus event: either driving the DC control line
(gpio_set_level on PIN_NUM_DC) or an SPI transaction (spi_device_transmit). -/
inductive LcdEv where
  | setDC (level : Nat)
  | tx (t : SpiTx)
deriving DecidableEq

/-- Events of lcd_cmd in lcd_display.c: DC low (command mode), then one command byte. -/
def lcd_cmd (b : Nat) : List LcdEv := [.setDC 0, .tx (.cmd b)]

/-- Events of lcd_data in lcd_display.c: DC high (data mode), then the payload bytes. -/
def lcd_data (bytes : List Nat) : List LcdEv := [.setDC 1, .tx (.data bytes)]

/-- Wire-order conversion of a 16-bit color, from fill_screen:
color_swapped = (color >> 8) | (color << 8) on uint16_t. -/
def colorSwap (color : Nat) : Nat :=
  Nat.lor ((color % 65536) / 256) (((color % 65536) * 256) % 65536)

/-- Pixel-chunking loop of fill_screen: starting at offset sent within a band
of pts pixels, emit transactions of at most 1024 pixels
(max_pixels_per_transfer) until the band is exhausted.  The loop runs at most
pts times (each iteration sends at least one pixel), so fuel = pts suffices;
bandBase is the scan-order index of the band's first pixel. -/
def chunkLoop (cw bandBase pts : Nat) : Nat → Nat → List LcdEv
  | 0, _ => []
  | fuel + 1, sent =>
    if sent < pts then
      let chunk := if pts - sent > 1024 then 1024 else pts - sent
      LcdEv.tx (.pixels (bandBase + sent) chunk cw) :: chunkLoop cw bandBase pts fuel (sent + chunk)
    else []

/-- Events issued by fill_screen for the band starting at row y: column
address window, row address window, memory-write command, DC high, then the
band's pixel chunks (lcd_display.c lines 153-190). -/
def bandEvents (cw y : Nat) : List LcdEv :=
  let draw_height := if y + BUF_HEIGHT ≤ LCD_V_RES then BUF_HEIGHT else LCD_V_RES - y
  lcd_cmd 0x2A ++ lcd_data [0, 0, 0, LCD_H_RES - 1] ++
  lcd_cmd 0x2B ++
  lcd_data [(y / 256) % 256, y % 256,
            ((y + draw_height - 1) / 256) % 256, (y + draw_height - 1) % 256] ++
  lcd_cmd 0x2C ++ [.setDC 1] ++
  chunkLoop cw (y * LCD_H_RES) (LCD_H_RES * draw_height) (LCD_H_RES * draw_height) 0

/-- Band loop of fill_screen: for (y = 0; y < LCD_V_RES; y += BUF_HEIGHT).
The loop body runs at most LCD_V_RES times, so fuel = LCD_V_RES suffices. -/
def bandLoop (cw : Nat) : Nat → Nat → List LcdEv
  | 0, _ => []
  | fuel + 1, y =>
    if y < LCD_V_RES then bandEvents cw y ++ bandLoop cw fuel (y + BUF_HEIGHT) else []

/-- Full event trace of fill_screen(color) (lcd_display.c lines 139-192). -/
def fillScreenEvents (color : Nat) : List LcdEv :=
  bandLoop (colorSwap color) LCD_V_RES 0

/-- Check of command/data mode discipline over an event trace: the argument
tracks the last level driven on the DC line (none before any setDC); a
command byte demands level 0 and a data or pixel payload demands level 1. -/
def modeOkFrom : Option Nat → List LcdEv → Bool
  | _, [] => true
  | _, LcdEv.setDC l :: rest => modeOkFrom (some l) rest
  | m, LcdEv.tx (SpiTx.cmd _) :: rest => (m == some 0) && modeOkFrom m rest
  | m, LcdEv.tx (SpiTx.data _) :: rest => (m == some 1) && modeOkFrom m rest
  | m, LcdEv.tx (SpiTx.pixels _ _ _) :: rest => (m == some 1) && modeOkFrom m rest

/-- Pixel chunks of an event trace, as (scan-order start, pixel count) pairs. -/
def pixelChunks (evs : List LcdEv) : List (Nat × Nat) :=
  evs.filterMap fun e =>
    match e with
    | .tx (.pixels s n _) => some (s, n)
    | _ => none

/-- Check that a chunk list is contiguous and non-overlapping in scan order
starting at position pos: each chunk begins where the previous one ended. -/
def contiguousFrom (pos : Nat) : List (Nat × Nat) → Bool
  | [] => true
  | (s, n) :: rest => (s == pos) && contiguousFrom (s + n) rest

/-- SPI transactions of an event trace, in issue order. -/
def spiTxList (evs : List LcdEv) : List SpiTx :=
  evs.filterMap fun e =>
    match e with
    | .tx t => some t
    | _ => none

/-- Pair each transaction with the bus result its environment assigns to it
(true = the spi_device_transmit call for that transaction fails), numbering
transactions from i.  fill_screen in the source discards every
spi_device_transmit return value and is declared void, so the issued
transaction sequence never depends on these results and no error reaches the
caller. -/
def attachResultsFrom (env : Nat → Bool) : Nat → List SpiTx → List (SpiTx × Bool)
  | _, [] => []
  | i, t :: rest => (t, env i) :: attachResultsFrom env (i + 1) rest

/-- Transactions of a fill_screen(color) run together with the per-transaction
bus results assigned by env. -/
def fillScreenTxResults (env : Nat → Bool) (color : Nat) : List (SpiTx × Bool) :=
  attachResultsFrom env 0 (spiTxList (fillScreenEvents color))

/- ===================== firebase.c ===================== -/

/-- ESP-IDF error results used by firebase.c: ESP_OK, ESP_FAIL, ESP_ERR_NO_MEM. -/
inductive EspErr where
  | ok
  | fail
  | noMem
deriving DecidableEq

/-- Capacity of the HTTP response accumulator (RESPONSE_BUFFER_SIZE in firebase.c). -/
def RESPONSE_BUFFER_SIZE : Nat := 4096

/-- Capacity of the id_token buffer (sizeof id_token in firebase.c, 2048 bytes
including the terminating NUL). -/
def ID_TOKEN_CAPACITY : Nat := 2048

/-- HTTP_EVENT_ON_DATA case of _http_event_handler in firebase.c: a chunk is
appended only when the accumulated length plus the chunk length stays below
RESPONSE_BUFFER_SIZE; otherwise the chunk is dropped with a logged overflow
error.  The handler returns ESP_OK in every case, so the client continues. -/
def http_event_handler (buf dataChunk : List Nat) : EspErr × List Nat :=
  if 0 < dataChunk.length then
    if buf.length + dataChunk.length < RESPONSE_BUFFER_SIZE then
      (.ok, buf ++ dataChunk)
    else
      (.ok, buf)
  else
    (.ok, buf)

/-- Accumulated response after a sequence of HTTP_EVENT_ON_DATA chunks,
starting from the empty buffer allocated at the top of firebase_sign_in. -/
def accumulateResponse (chunks : List (List Nat)) : List Nat :=
  chunks.foldl (fun buf c => (http_event_handler buf c).2) []

/-- Mutable state of firebase.c: the global id_token buffer, as a string
(empty = no token, matching strlen(id_token) == 0). -/
structure FbState where
  idToken : String
deriving DecidableEq

/-- Environment of one firebase_sign_in call, abstracting the external HTTP
client and cJSON parser: whether calloc of the response buffer succeeds, the
result of esp_http_client_perform, the HTTP status code, and the parsed view
of the accumulated response body — none when cJSON_Parse fails, some none
when the JSON carries no string field idToken, some (some tok) otherwise. -/
structure SignInEnv where
  allocOk : Bool
  transport : EspErr
  status : Int
  parsed : Option (Option String)
deriving DecidableEq

/-- Shallow embedding of firebase_sign_in (firebase.c lines 94-158) as a
state transformer returning the esp_err_t result and the new state.  When the
transport succeeds and the body parses to a string idToken, the token is
stored truncated to ID_TOKEN_CAPACITY - 1 characters (strncpy with forced NUL
termination); the HTTP status code is only logged; the function returns the
value of err from esp_http_client_perform in every path. -/
def firebase_sign_in (st : FbState) (env : SignInEnv) : EspErr × FbState :=
  if env.allocOk = false then
    (.noMem, st)
  else
    match env.transport with
    | .ok =>
      match env.parsed with
      | some (some tok) => (.ok, { st with idToken := tok.take (ID_TOKEN_CAPACITY - 1) })
      | some none => (.ok, st)
      | none => (.ok, st)
    | e => (e, st)

/-- Observable network-side effects of send_rfid_log_to_firebase: creating
the HTTP client (esp_http_client_init) and performing the POST with the
serialized {uid, timestamp} body. -/
inductive UploadEffect where
  | clientInit
  | post (uid timestamp : String)
deriving DecidableEq

/-- Environment of one send_rfid_log_to_firebase call: whether malloc of the
URL buffer succeeds, the result of esp_http_client_perform, and the HTTP
status code of the response. -/
structure UploadEnv where
  mallocOk : Bool
  transport : EspErr
  status : Int
deriving DecidableEq

/-- Shallow embedding of send_rfid_log_to_firebase (firebase.c lines
174-229): result, post-state, and the list of network effects performed.  An
empty token fails fast with ESP_FAIL and no effect; a failed URL malloc
returns ESP_ERR_NO_MEM with no effect; otherwise the client is created, the
POST is performed, the status code is only logged, and the function returns
the value of err from esp_http_client_perform.  The token is only read (to
build the URL), never written. -/
def send_rfid_log_to_firebase (st : FbState) (env : UploadEnv) (uid timestamp : String) :
    EspErr × FbState × List UploadEffect :=
  if st.idToken.length = 0 then
    (.fail, st, [])
  else if env.mallocOk = false then
    (.noMem, st, [])
  else
    (env.transport, st, [.clientInit, .post uid timestamp])

/- ===================== rfid.c ===================== -/

/-- First allow-listed credential (CARD_UID in rfid.c). -/
def CARD_UID : List Nat := [0x99, 0xB6, 0xB3, 0x02]

/-- Second allow-listed credential (CHIP_UID in rfid.c). -/
def CHIP_UID : List Nat := [0x25, 0x0F, 0xC5, 0x01]

/-- Byte-for-byte UID comparison (compare_uid in rfid.c lines 42-49): true
iff the first size bytes of the two UIDs agree.  The C loop exits at the
first mismatch; this recursion checks the same indices 0..size-1, so the
value is identical. -/
def compare_uid (uid1 uid2 : List Nat) : Nat → Bool
  | 0 => true
  | k + 1 => compare_uid uid1 uid2 k && (uid1.getD k 0 == uid2.getD k 0)

/-- Classification outcomes of a credential (spec section 4.3): Neutral,
authorized class A (CARD_UID, green), authorized class B (CHIP_UID, red). -/
inductive Outcome where
  | neutral
  | classA
  | classB
deriving DecidableEq

/-- Classification of a credential, read off the branch structure of
on_picc_state_changed (rfid.c lines 80-89): a 4-byte UID equal to CARD_UID is
class A, a 4-byte UID equal to CHIP_UID is class B, everything else —
including every UID whose length is not 4 — is neutral. -/
def classify (uid : List Nat) : Outcome :=
  if uid.length = 4 then
    if compare_uid uid CARD_UID 4 then .classA
    else if compare_uid uid CHIP_UID 4 then .classB
    else .neutral
  else .neutral

/-- Broken-down local time, mirroring the C struct tm fields read by strftime
for the pattern "%Y-%m-%dT%H:%M:%SZ": tm_year counts years since 1900 and
tm_mon counts months since January. -/
structure Tm where
  tm_year : Nat
  tm_mon : Nat
  tm_mday : Nat
  tm_hour : Nat
  tm_min : Nat
  tm_sec : Nat
deriving DecidableEq

/-- Decimal rendering padded to two digits (strftime %m, %d, %H, %M, %S). -/
def pad2 (n : Nat) : String :=
  if n < 10 then "0" ++ toString n else toString n

/-- Decimal rendering padded to four digits (strftime %Y). -/
def pad4 (n : Nat) : String :=
  if n < 10 then "000" ++ toString n
  else if n < 100 then "00" ++ toString n
  else if n < 1000 then "0" ++ toString n
  else toString n

/-- Timestamp produced by strftime(timestamp, 25, "%Y-%m-%dT%H:%M:%SZ",
&timeinfo) in on_picc_state_changed (rfid.c line 104). -/
def formatTimestamp (t : Tm) : String :=
  pad4 (1900 + t.tm_year) ++ "-" ++ pad2 (t.tm_mon + 1) ++ "-" ++ pad2 t.tm_mday ++ "T" ++
  pad2 t.tm_hour ++ ":" ++ pad2 t.tm_min ++ ":" ++ pad2 t.tm_sec ++ "Z"

/-- Credential state as tested by on_picc_state_changed: the C code compares
picc->state against RC522_PICC_STATE_ACTIVE and returns early on inequality,
so only this binary distinction is observable. -/
inductive PiccState where
  | active
  | other
deriving DecidableEq

/-- Credential event delivered by the RC522 reader callback: the card state
and the UID bytes (picc->uid.value, picc->uid.length). -/
structure PiccEvent where
  state : PiccState
  uid : List Nat
deriving DecidableEq

/-- Observable actions of the orchestrator callback: a full-screen fill with
an RGB565 color, a blocking delay in milliseconds (vTaskDelay), and an upload
call (send_rfid_log_to_firebase) with its uid string and timestamp. -/
inductive Action where
  | fill (color : Nat)
  | delayMs (ms : Nat)
  | upload (uid timestamp : String)
deriving DecidableEq

/-- Shallow embedding of on_picc_state_changed (rfid.c lines 64-108) as the
list of actions it performs.  uidToStr abstracts the external library
function rc522_picc_uid_to_str and timeinfo the local time read from the
clock; both are environment parameters of the callback.  A non-active event
returns immediately with no action; an active event with a 4-byte UID fills
the matched class color (if any), delays 3000 ms, and fills the waiting
color; every active event ends with exactly one upload call. -/
def on_picc_state_changed (uidToStr : List Nat → String) (timeinfo : Tm)
    (ev : PiccEvent) : List Action :=
  if ev.state ≠ PiccState.active then
    []
  else
    let uid_str := uidToStr ev.uid
    (if ev.uid.length = 4 then
      (if compare_uid ev.uid CARD_UID 4 then
        [Action.fill (get_color_for_card .card)]
      else if compare_uid ev.uid CHIP_UID 4 then
        [Action.fill (get_color_for_card .chip)]
      else
        []) ++
      [Action.delayMs 3000, Action.fill (get_color_for_card .waiting)]
    else
      []) ++
    [Action.upload uid_str (formatTimestamp timeinfo)]

/-- Display-path actions: fills and delays, but not uploads. -/
def isDisplayAction : Action → Bool
  | .fill _ => true
  | .delayMs _ => true
  | .upload _ _ => false

/-- Upload actions. -/
def isUploadAction : Action → Bool
  | .upload _ _ => true
  | _ => false

/-- Concrete active event with a 5-byte UID, used as a concrete input. -/
def evLen5 : PiccEvent := { state := .active, uid := [1, 2, 3, 4, 5] }

/-- Concrete broken-down time, used as a concrete input. -/
def tm0 : Tm :=
  { tm_year := 126, tm_mon := 9, tm_mday := 11, tm_hour := 12, tm_min := 0, tm_sec := 0 }

/- ===================== theorems ===================== -/

/-- Helper: on 4-byte UIDs compare_uid agrees with list equality. -/
theorem compare_uid_four_iff (a b : List Nat) (ha : a.length = 4) (hb : b.length = 4) :
    compare_uid a b 4 = true ↔ a = b := by
  rcases a with _ | ⟨a0, _ | ⟨a1, _ | ⟨a2, _ | ⟨a3, _ | ⟨a4, tla⟩⟩⟩⟩⟩ <;> simp_all
  rcases b with _ | ⟨b0, _ | ⟨b1, _ | ⟨b2, _ | ⟨b3, _ | ⟨b4, tlb⟩⟩⟩⟩⟩ <;> simp_all
  have hcmp : compare_uid [a0, a1, a2, a3] [b0, b1, b2, b3] 4
      = ((((true && (a0 == b0)) && (a1 == b1)) && (a2 == b2)) && (a3 == b3)) := rfl
  rw [hcmp]
  simp only [Bool.true_and, Bool.and_eq_true, beq_iff_eq]
  tauto

/-- Helper: the transaction sequence of a run is the nominal sequence,
whatever results the environment assigns. -/
theorem attachResultsFrom_map_fst (env : Nat → Bool) (i : Nat) (l : List SpiTx) :
    (attachResultsFrom env i l).map Prod.fst = l := by
  induction l generalizing i with
  | nil => rfl
  | cons t rest ih => simp [attachResultsFrom, ih]

/-- Claim C1 (code_bug evaluation): with the transport succeeding, HTTP
status 200 and a response body that is not valid JSON, firebase_sign_in
returns ESP_OK — a success result — while storing no token, contradicting the
claim and the function's own doc comment, which promises ESP_FAIL for HTTP or
JSON parsing errors. -/
theorem sign_in_malformed_json_returns_ok :
    firebase_sign_in ⟨""⟩ { allocOk := true, transport := .ok, status := 200, parsed := none }
      = (.ok, ⟨""⟩) := rfl

/-- Claim C2: an upload attempted while the stored token is empty fails
immediately with ESP_FAIL and performs no network effect: no HTTP client is
created and no request is sent. -/
theorem upload_without_token_fails_fast (st : FbState) (env : UploadEnv)
    (uid timestamp : String) (h : st.idToken = "") :
    send_rfid_log_to_firebase st env uid timestamp = (.fail, st, []) := by
  simp [send_rfid_log_to_firebase, h]

/-- Witness for claim C2 at a concrete empty-token state. -/
theorem upload_without_token_fails_fast_witness :
    send_rfid_log_to_firebase ⟨""⟩ ⟨true, .ok, 200⟩ "99 B6 B3 02" "2026-10-11T12:00:00Z"
      = (.fail, ⟨""⟩, []) :=
  upload_without_token_fails_fast ⟨""⟩ ⟨true, .ok, 200⟩ "99 B6 B3 02" "2026-10-11T12:00:00Z" rfl

set_option maxRecDepth 4000 in
/-- Claim C3: for every color, the pixel chunks of a full-screen fill
partition the 128x160 region exactly — their sizes sum to the region's area,
each is at most 1024 pixels, they are contiguous and non-overlapping in scan
order — and every command byte is issued in command mode and every data or
pixel payload in data mode. -/
theorem fill_screen_chunks_partition (color : Nat) :
    ((pixelChunks (fillScreenEvents color)).map Prod.snd).sum = LCD_H_RES * LCD_V_RES ∧
    (∀ p ∈ pixelChunks (fillScreenEvents color), p.2 ≤ 1024) ∧
    contiguousFrom 0 (pixelChunks (fillScreenEvents color)) = true ∧
    modeOkFrom none (fillScreenEvents color) = true := by
  have h : pixelChunks (fillScreenEvents color)
      = [(0, 1024), (1024, 1024), (2048, 1024), (3072, 1024), (4096, 1024),
         (5120, 1024), (6144, 1024), (7168, 1024), (8192, 1024), (9216, 1024),
         (10240, 1024), (11264, 1024), (12288, 1024), (13312, 1024), (14336, 1024),
         (15360, 1024), (16384, 1024), (17408, 1024), (18432, 1024), (19456, 1024)] := rfl
  refine ⟨by rw [h]; decide, by rw [h]; decide, by rw [h]; decide, rfl⟩

set_option maxRecDepth 4000 in
/-- Witness for claim C3: the first chunk of the fill with color 0 is within
the 1024-pixel bound. -/
theorem fill_screen_chunks_partition_witness : (0, 1024).2 ≤ 1024 :=
  (fill_screen_chunks_partition 0).2.1 (0, 1024) (by decide)

/-- Claim C4 (amended): fill_screen ignores the result of every bus
transaction — the issued transaction sequence equals the nominal one, all 40
transactions, for every assignment of per-transaction failures; being void,
it surfaces no error and performs no retry. -/
theorem fill_screen_ignores_transmit_failures (env : Nat → Bool) (color : Nat) :
    (fillScreenTxResults env color).map Prod.fst = spiTxList (fillScreenEvents color) ∧
    (fillScreenTxResults env color).length = 40 := by
  constructor
  · exact attachResultsFrom_map_fst env 0 _
  · have h1 := congrArg List.length (attachResultsFrom_map_fst env 0 (spiTxList (fillScreenEvents color)))
    rw [List.length_map] at h1
    rw [fillScreenTxResults, h1]
    set_option maxRecDepth 4000 in rfl

set_option maxRecDepth 4000 in
/-- Claim C4 (counterexample): in a run where every bus transaction fails —
including the very first — fill_screen still issues all 40 transactions,
identical to the failure-free run, and returns void: no failure is fatal to
the fill and none is surfaced to the caller. -/
theorem fill_screen_error_not_surfaced :
    (fillScreenTxResults (fun _ => true) 0).length = 40 ∧
    ((fillScreenTxResults (fun _ => true) 0).map Prod.snd).all (fun b => b) = true ∧
    (fillScreenTxResults (fun _ => true) 0).map Prod.fst
      = (fillScreenTxResults (fun _ => false) 0).map Prod.fst :=
  ⟨rfl, rfl, rfl⟩

/-- Claim C5 (amended): for an active event with a 4-byte UID the display
actions are the class color fill for class A or class B (two distinct
colors), no initial fill for a neutral outcome, always followed by the
3000 ms dwell and a fill with the neutral (waiting) color; an active event
whose UID length is not 4 performs no display action at all. -/
theorem display_feedback_by_outcome (uidToStr : List Nat → String) (timeinfo : Tm)
    (ev : PiccEvent) (ha : ev.state = PiccState.active) :
    get_color_for_card CardColor.card ≠ get_color_for_card CardColor.chip ∧
    (ev.uid.length = 4 →
      (on_picc_state_changed uidToStr timeinfo ev).filter isDisplayAction
        = (match classify ev.uid with
           | Outcome.classA => [Action.fill (get_color_for_card CardColor.card)]
           | Outcome.classB => [Action.fill (get_color_for_card CardColor.chip)]
           | Outcome.neutral => []) ++
          [Action.delayMs 3000, Action.fill (get_color_for_card CardColor.waiting)]) ∧
    (ev.uid.length ≠ 4 →
      (on_picc_state_changed uidToStr timeinfo ev).filter isDisplayAction = []) := by
  refine ⟨by decide, ?_, ?_⟩
  · intro h4
    unfold on_picc_state_changed classify
    rw [if_neg (by simp [ha])]
    by_cases hc : compare_uid ev.uid CARD_UID 4 <;>
      by_cases hh : compare_uid ev.uid CHIP_UID 4 <;>
        simp [h4, hc, hh, isDisplayAction, List.filter_append, List.filter]
  · intro h4
    unfold on_picc_state_changed
    rw [if_neg (by simp [ha])]
    simp [h4, isDisplayAction, List.filter]

/-- Witness for claim C5 at the class-A credential: green fill, 3 s dwell,
gray restore. -/
theorem display_feedback_by_outcome_witness :
    (on_picc_state_changed (fun _ => "99 B6 B3 02") tm0 ⟨.active, CARD_UID⟩).filter isDisplayAction
      = [Action.fill (get_color_for_card CardColor.card),
         Action.delayMs 3000, Action.fill (get_color_for_card CardColor.waiting)] :=
  ((display_feedback_by_outcome (fun _ => "99 B6 B3 02") tm0 ⟨.active, CARD_UID⟩ rfl).2.1
    (by decide)).trans (by decide)

/-- Claim C5 (counterexample): the active event with the 5-byte UID
[1, 2, 3, 4, 5] is processed — its upload is attempted — yet produces no
display action at all: no fill with the neutral color, no 3-second dwell, no
restore, contradicting the claim that every processed event gets the mapped
fill, the dwell and the restore. -/
theorem active_event_without_display_feedback :
    evLen5.state = PiccState.active ∧
    (on_picc_state_changed (fun _ => "01 02 03 04 05") tm0 evLen5).filter isDisplayAction = [] ∧
    (on_picc_state_changed (fun _ => "01 02 03 04 05") tm0 evLen5).filter isUploadAction ≠ [] :=
  ⟨rfl, rfl, by decide⟩

/-- Claim C6: classification is a total pure function of the credential
bytes — CARD_UID yields class A, CHIP_UID yields the distinct class B, every
non-4-byte input and every 4-byte input matching neither constant yields
Neutral. -/
theorem classify_total :
    classify CARD_UID = Outcome.classA ∧ classify CHIP_UID = Outcome.classB ∧
    Outcome.classA ≠ Outcome.classB ∧
    (∀ uid : List Nat, uid.length ≠ 4 → classify uid = Outcome.neutral) ∧
    (∀ uid : List Nat, uid.length = 4 → uid ≠ CARD_UID → uid ≠ CHIP_UID →
      classify uid = Outcome.neutral) := by
  refine ⟨by decide, by decide, by decide, ?_, ?_⟩
  · intro uid h
    simp [classify, h]
  · intro uid h4 h1 h2
    have hc1 : compare_uid uid CARD_UID 4 = false := by
      cases hb : compare_uid uid CARD_UID 4
      · rfl
      · exact absurd ((compare_uid_four_iff uid CARD_UID h4 (by decide)).mp hb) h1
    have hc2 : compare_uid uid CHIP_UID 4 = false := by
      cases hb : compare_uid uid CHIP_UID 4
      · rfl
      · exact absurd ((compare_uid_four_iff uid CHIP_UID h4 (by decide)).mp hb) h2
    simp [classify, h4, hc1, hc2]

/-- Witness for claim C6 at two concrete non-matching credentials. -/
theorem classify_total_witness :
    classify [1, 2, 3] = Outcome.neutral ∧ classify [1, 2, 3, 4] = Outcome.neutral :=
  ⟨classify_total.2.2.2.1 [1, 2, 3] (by decide),
   classify_total.2.2.2.2 [1, 2, 3, 4] (by decide) (by decide) (by decide)⟩

/-- Claim C7: the response accumulator never exceeds its 4096-byte capacity
for any sequence of incoming chunks, and a chunk that would reach or exceed
the capacity is dropped — the buffer is unchanged — while the handler still
returns ESP_OK, so processing continues. -/
theorem response_accumulator_bounded :
    (∀ chunks : List (List Nat), (accumulateResponse chunks).length ≤ RESPONSE_BUFFER_SIZE) ∧
    (∀ buf c : List Nat, RESPONSE_BUFFER_SIZE ≤ buf.length + c.length →
      http_event_handler buf c = (.ok, buf)) := by
  constructor
  · intro chunks
    have key : ∀ (cs : List (List Nat)) (b : List Nat), b.length < RESPONSE_BUFFER_SIZE →
        (cs.foldl (fun buf c => (http_event_handler buf c).2) b).length < RESPONSE_BUFFER_SIZE := by
      intro cs
      induction cs with
      | nil => intro b hb; simpa using hb
      | cons c rest ih =>
        intro b hb
        simp only [List.foldl_cons]
        apply ih
        unfold http_event_handler
        by_cases h1 : 0 < c.length
        · by_cases h2 : b.length + c.length < RESPONSE_BUFFER_SIZE
          · simp [h1, h2]
          · simpa [h1, h2] using hb
        · simpa [h1] using hb
    exact le_of_lt (key chunks [] (by simp [accumulateResponse, RESPONSE_BUFFER_SIZE]))
  · intro buf c h
    unfold http_event_handler
    by_cases h1 : 0 < c.length
    · have h2 : ¬ (buf.length + c.length < RESPONSE_BUFFER_SIZE) := by omega
      simp [h1, h2]
    · simp [h1]

/-- Witness for claim C7: a small accumulation stays within capacity, and a
chunk arriving at a nearly full buffer is dropped with an ESP_OK result. -/
theorem response_accumulator_bounded_witness :
    (accumulateResponse [[1, 2, 3]]).length ≤ RESPONSE_BUFFER_SIZE ∧
    http_event_handler (List.replicate 4000 0) (List.replicate 96 1)
      = (.ok, List.replicate 4000 0) :=
  ⟨response_accumulator_bounded.1 [[1, 2, 3]],
   response_accumulator_bounded.2 (List.replicate 4000 0) (List.replicate 96 1)
     (by rw [List.length_replicate, List.length_replicate]; norm_num [RESPONSE_BUFFER_SIZE])⟩

/-- Claim C8: a non-active credential event is not processed at all, and an
active one — whatever the UID length or classification — produces exactly one
upload call, whose uid is the string form of the credential and whose
timestamp is the "%Y-%m-%dT%H:%M:%SZ" rendering of the configured local
time. -/
theorem one_upload_per_active_event (uidToStr : List Nat → String) (timeinfo : Tm)
    (ev : PiccEvent) :
    (ev.state ≠ PiccState.active → on_picc_state_changed uidToStr timeinfo ev = []) ∧
    (ev.state = PiccState.active →
      (on_picc_state_changed uidToStr timeinfo ev).filter isUploadAction
        = [Action.upload (uidToStr ev.uid) (formatTimestamp timeinfo)]) := by
  constructor
  · intro h
    simp [on_picc_state_changed, h]
  · intro h
    unfold on_picc_state_changed
    rw [if_neg (by simp [h])]
    by_cases h4 : ev.uid.length = 4
    · by_cases hc : compare_uid ev.uid CARD_UID 4 <;>
        by_cases hh : compare_uid ev.uid CHIP_UID 4 <;>
          simp [h4, hc, hh, isUploadAction, List.filter_append, List.filter]
    · simp [h4, isUploadAction, List.filter]

/-- Witness for claim C8 at a concrete active event with an unmatched 4-byte
credential. -/
theorem one_upload_per_active_event_witness :
    (on_picc_state_changed (fun _ => "01 02 03 04") tm0 ⟨.active, [1, 2, 3, 4]⟩).filter
        isUploadAction
      = [Action.upload "01 02 03 04" (formatTimestamp tm0)] :=
  (one_upload_per_active_event (fun _ => "01 02 03 04") tm0 ⟨.active, [1, 2, 3, 4]⟩).2 rfl

/-- Claim C9: when the guards pass and the HTTP exchange completes (the
perform call returns ESP_OK) the upload returns ESP_OK whatever the status
code — the whole call result is even independent of the status, so a non-2xx
status is not surfaced as a different result kind than a 2xx one. -/
theorem upload_status_ignored (st : FbState) (env : UploadEnv) (uid timestamp : String)
    (htok : st.idToken.length ≠ 0) (hm : env.mallocOk = true) (ht : env.transport = .ok) :
    (send_rfid_log_to_firebase st env uid timestamp).1 = .ok ∧
    send_rfid_log_to_firebase st env uid timestamp
      = send_rfid_log_to_firebase st { env with status := 200 } uid timestamp := by
  constructor
  · simp [send_rfid_log_to_firebase, htok, hm, ht]
  · simp [send_rfid_log_to_firebase, htok, hm]

/-- Witness for claim C9 at a concrete state and environment with a non-2xx
status. -/
theorem upload_status_ignored_witness :
    (send_rfid_log_to_firebase ⟨"tok"⟩ ⟨true, .ok, 503⟩ "u" "t").1 = .ok :=
  (upload_status_ignored ⟨"tok"⟩ ⟨true, .ok, 503⟩ "u" "t" (by decide) rfl rfl).1

/-- Claim C10: the upload operation never modifies the stored session token:
for every prior state, environment, uid and timestamp, the token after the
call is identical to the token before it. -/
theorem upload_preserves_token (st : FbState) (env : UploadEnv) (uid timestamp : String) :
    (send_rfid_log_to_firebase st env uid timestamp).2.1.idToken = st.idToken := by
  unfold send_rfid_log_to_firebase
  by_cases h1 : st.idToken.length = 0
  · simp [h1]
  · by_cases h2 : env.mallocOk = false
    · simp [h1, h2]
    · simp [h1, h2]

end AccessControl
